import Mathlib

/-!
Shallow embedding of `DeBERTa-FineTune/engine/trainer_accelerate.py`.

The trainer is a per-epoch loop over batches.  Each step composes a loss
(plain task loss, or a knowledge-distillation composite when a teacher is
supplied), scales it by the gradient-accumulation window, performs the
backward call, clips or measures the gradient norm, and — on steps where
the accumulation window is full or the epoch ends — advances the
optimizer, the learning-rate scheduler, zeroes gradients, advances a
progress counter, and invokes the optional pruning hooks.  Predictions and
references are gathered across workers and handed to the metric
aggregator at every step; telemetry is logged on a configurable stride.

Tensors are abstract (a type parameter `T`); pluggable numeric functions
(the KD sub-losses, argmax, squeeze, the cross-worker gather, the
scheduler transition) are fields of an environment record.  Scalar losses
and learning rates are rationals.  Each step emits an ordered trace of
events mirroring the order of the corresponding source lines; failures
(Python exceptions: the KD assert, a missing task loss, integer modulo by
zero) are `Except.error` carrying the message and the events emitted
before the failure.
-/

namespace TrainerModel

/- The Batteries rational-arithmetic operations are irreducible by
default; the concrete witness evaluations below unfold them. -/
attribute [local semireducible] Rat.mul Rat.inv Rat.add Rat.sub

/-- One batch: named input tensors plus the labels field that both loss
computation and metric aggregation require. -/
structure Batch (T : Type) where
  inputs : T
  labels : T
deriving DecidableEq, Repr

/-- Output of one forward pass: optional task loss, logits, and the
per-layer hidden-state / attention sequences (present when requested). -/
structure ModelOutput (T : Type) where
  loss : Option ℚ
  logits : T
  hidden_states : List T
  attentions : List T
deriving DecidableEq, Repr

/-- The configuration surface consumed by the trainer, with the source's
field names.  `CLIP_GRAD` follows Python truthiness: clipping is enabled
iff the value is nonzero. -/
structure Config where
  GRADIENT_ACCUMULATION_STEPS : ℕ
  CLIP_GRAD : ℚ
  KD_BEGIN_LAYER : ℕ
  PRINT_FREQ : ℕ
  EPOCHS : ℕ
deriving DecidableEq, Repr

/-- The pruning controller interface: `pruneResult k` is what the k-th
`prune()` call returns (an optional current sparsity), `updateMaskCond k`
is the mask-update condition queried right after that call, and
`sparsity k` the (layer, total) sparsity report. -/
structure Pruner where
  pruneResult : ℕ → Option ℚ
  updateMaskCond : ℕ → Bool
  sparsity : ℕ → ℚ × ℚ

/-- Events emitted by a step, in source order.  `teacherForward` records
whether the call ran inside the no-grad scope; `backward` records the loss
value handed to `accelerator.backward`; `addBatch` records the (already
gathered) predictions and references handed to the metric aggregator;
`logStep` records the telemetry line's raw loss, scaled loss and, in KD
mode, the three sub-losses. -/
inductive Event (T : Type) where
  | studentForward (withHiddenAndAttn : Bool)
  | teacherForward (noGradScope : Bool)
  | backward (loss : ℚ)
  | clipGrad (maxNorm : ℚ)
  | measureGradNorm
  | optStep
  | schedStep
  | zeroGrad
  | progressUpdate
  | prune (curSparsity : Option ℚ)
  | sparsityReport (report : ℚ × ℚ)
  | addBatch (predictions : T) (references : T)
  | logStep (loss_raw : ℚ) (loss : ℚ) (kd : Option (ℚ × ℚ × ℚ))
deriving DecidableEq, Repr

/-- Per-epoch mutable state threaded through the loop: the recorded
per-step losses and learning rates, the optimizer's current learning
rate, the progress-bar counter, the number of pruner `prune()` calls so
far, the teacher model's private state (its parameters and gradients),
and the metric aggregator's accumulated (predictions, references) pairs. -/
structure LoopState (T TS : Type) where
  batch_loss : List ℚ
  step_lr : List ℚ
  lr : ℚ
  progress : ℕ
  pruneCalls : ℕ
  teacherState : TS
  metricAdded : List (T × T)
deriving DecidableEq, Repr

/-- The collaborators of one run.  The student model and teacher are
callables taking the batch and the two output flags; the teacher
additionally threads its private state `TS` (parameters and gradients),
so that a forward outside the no-grad scope could mutate it. -/
structure Env (T TS : Type) where
  model : Batch T → Bool → Bool → ModelOutput T
  teacher : Option (Batch T → Bool → Bool → TS → ModelOutput T × TS)
  kd_cls_loss : Option (T → T → ℚ)
  kd_reg_loss : Option (T → T → ℚ)
  argmax : T → T
  squeeze : T → T
  gather : T → T
  schedNext : ℚ → ℚ
  pruner : Option Pruner
  is_regression : Bool
  config : Config

/-- Result of a step or of a whole phase body: on success the new state
and the emitted events, on failure the exception message and the events
emitted before the failure. -/
abbrev StepResult (T TS : Type) :=
  Except (String × List (Event T)) (LoopState T TS × List (Event T))

/-- Decidable equality of step results, for evaluating concrete runs. -/
instance exceptDecEq {e a : Type _} [DecidableEq e] [DecidableEq a] :
    DecidableEq (Except e a) := fun x y =>
  match x, y with
  | Except.ok u, Except.ok v =>
      if h : u = v then Decidable.isTrue (by rw [h])
      else Decidable.isFalse (fun hc => by cases hc; exact h rfl)
  | Except.error u, Except.error v =>
      if h : u = v then Decidable.isTrue (by rw [h])
      else Decidable.isFalse (fun hc => by cases hc; exact h rfl)
  | Except.ok _, Except.error _ => Decidable.isFalse (fun hc => Except.noConfusion hc)
  | Except.error _, Except.ok _ => Decidable.isFalse (fun hc => Except.noConfusion hc)

/-- The `with torch.no_grad():` scope as used for the teacher forward: the
computation's state changes are discarded. -/
def noGrad {σ α : Type _} (f : σ → α × σ) (s : σ) : α × σ := ((f s).1, s)

/-- Gradient-accumulation scheduler, from source line 79:
`not (step + 1) % config.TRAIN.GRADIENT_ACCUMULATION_STEPS or step == len(dataloader) - 1`. -/
def shouldUpdate (step n w : ℕ) : Bool :=
  (step + 1) % w == 0 || step == n - 1

/-- KD composite raw loss, source lines 40-56: logit loss plus the
per-layer hidden-state and attention losses, each accumulated by a fold
over the zip of the two sequences sliced from `begin_layer` onward. -/
def kdComposeLoss {T : Type} (clsLoss regLoss : T → T → ℚ) (beginLayer : ℕ)
    (s t : ModelOutput T) : ℚ :=
  let logit_loss := clsLoss s.logits t.logits
  let hs_loss := ((s.hidden_states.drop beginLayer).zip
      (t.hidden_states.drop beginLayer)).foldl (fun acc p => acc + regLoss p.1 p.2) 0
  let attn_loss := ((s.attentions.drop beginLayer).zip
      (t.attentions.drop beginLayer)).foldl (fun acc p => acc + regLoss p.1 p.2) 0
  logit_loss + hs_loss + attn_loss

/-- The three KD sub-losses (diagnostics for telemetry), same slicing. -/
def kdSubLosses {T : Type} (clsLoss regLoss : T → T → ℚ) (beginLayer : ℕ)
    (s t : ModelOutput T) : ℚ × ℚ × ℚ :=
  (clsLoss s.logits t.logits,
   ((s.hidden_states.drop beginLayer).zip
      (t.hidden_states.drop beginLayer)).foldl (fun acc p => acc + regLoss p.1 p.2) 0,
   ((s.attentions.drop beginLayer).zip
      (t.attentions.drop beginLayer)).foldl (fun acc p => acc + regLoss p.1 p.2) 0)

/-- Clip-or-measure, source lines 69-73: clip to the configured max norm
when `config.TRAIN.CLIP_GRAD` is truthy, otherwise measure the norm. -/
def clipEvts {T : Type} (cfg : Config) : List (Event T) :=
  if cfg.CLIP_GRAD ≠ 0 then [Event.clipGrad cfg.CLIP_GRAD] else [Event.measureGradNorm]

/-- Pruning hooks, source lines 87-99: `prune()` first, then, when the
mask-update condition holds, the sparsity report. -/
def pruneBlock {T : Type} (pruner : Option Pruner) (k : ℕ) : List (Event T) :=
  match pruner with
  | none => []
  | some p =>
      Event.prune (p.pruneResult k) ::
        (if p.updateMaskCond k then [Event.sparsityReport (p.sparsity k)] else [])

/-- Events of the update branch, source lines 79-101. -/
def updBlock {T : Type} (env : Env T TS) (step n k : ℕ) : List (Event T) :=
  if shouldUpdate step n env.config.GRADIENT_ACCUMULATION_STEPS then
    [Event.optStep, Event.schedStep, Event.zeroGrad, Event.progressUpdate] ++
      pruneBlock env.pruner k
  else []

/-- State change of the update branch: scheduler advances the learning
rate, the progress counter advances, and a pruner call is recorded. -/
def updState {T TS : Type} (env : Env T TS) (step n : ℕ) (st : LoopState T TS) :
    LoopState T TS :=
  if shouldUpdate step n env.config.GRADIENT_ACCUMULATION_STEPS then
    { st with lr := env.schedNext st.lr, progress := st.progress + 1,
              pruneCalls := if env.pruner.isSome then st.pruneCalls + 1 else st.pruneCalls }
  else st

/-- Predictions handed to the aggregator, source lines 104-105:
argmax over the class dimension for classification, squeezed raw logits
for regression. -/
def predictionsOf {T TS : Type} (env : Env T TS) (logits : T) : T :=
  if env.is_regression then env.squeeze logits else env.argmax logits

/-- The student forward of the train phase: with hidden states and
attentions requested in KD mode (source line 27), plain otherwise
(source line 58). -/
def studentOutputs {T TS : Type} (env : Env T TS) (batch : Batch T) : ModelOutput T :=
  match env.teacher with
  | some _ => env.model batch true true
  | none => env.model batch false false

/-- Source lines 62-138: everything after the raw loss is composed.
Scales the loss by the accumulation window, records it, performs
backward, clips or measures the gradient norm, records the learning
rate, runs the update branch when due, gathers and adds predictions and
references to the aggregator, and logs telemetry on the configured
stride.  With window 0 the update test `(step + 1) % 0` raises
(ZeroDivisionError); with stride 0 the telemetry test `step % 0`
raises. -/
def restOfStep {T TS : Type} (env : Env T TS) (n step : ℕ) (batch : Batch T)
    (st0 : LoopState T TS) (outputs : ModelOutput T) (loss_raw : ℚ)
    (kdInfo : Option (ℚ × ℚ × ℚ)) (preEvents : List (Event T)) : StepResult T TS :=
  let w := env.config.GRADIENT_ACCUMULATION_STEPS
  let loss := loss_raw / (w : ℚ)
  let st1 : LoopState T TS :=
    { st0 with batch_loss := st0.batch_loss ++ [loss],
               step_lr := st0.step_lr ++ [st0.lr] }
  if w = 0 then
    Except.error ("ZeroDivisionError: integer modulo by zero",
      preEvents ++ [Event.backward loss] ++ clipEvts env.config)
  else
    let gp := env.gather (predictionsOf env outputs.logits)
    let gr := env.gather batch.labels
    let st2 : LoopState T TS :=
      { updState env step n st1 with metricAdded := st1.metricAdded ++ [(gp, gr)] }
    let evs := preEvents ++ [Event.backward loss] ++ clipEvts env.config ++
      updBlock env step n st1.pruneCalls ++ [Event.addBatch gp gr]
    if env.config.PRINT_FREQ = 0 then
      Except.error ("ZeroDivisionError: integer modulo by zero", evs)
    else if step % env.config.PRINT_FREQ = 0 then
      Except.ok (st2, evs ++ [Event.logStep loss_raw loss kdInfo])
    else
      Except.ok (st2, evs)

/-- One train step, source lines 20-138.  In KD mode the two sub-loss
functions are asserted present before anything runs (lines 22-24), the
student forward requests hidden states and attentions, the teacher
forward runs inside the no-grad scope, and the raw loss is the KD
composite; in plain mode the raw loss is the model's task loss, and a
missing loss raises at the division (line 62). -/
def trainStep {T TS : Type} (env : Env T TS) (n step : ℕ) (batch : Batch T)
    (st : LoopState T TS) : StepResult T TS :=
  match env.teacher with
  | some teacher =>
    match env.kd_cls_loss, env.kd_reg_loss with
    | some clsLoss, some regLoss =>
      let outputs := studentOutputs env batch
      let tRes := noGrad (teacher batch true true) st.teacherState
      let teacher_outputs := tRes.1
      let loss_raw := kdComposeLoss clsLoss regLoss env.config.KD_BEGIN_LAYER
        outputs teacher_outputs
      restOfStep env n step batch { st with teacherState := tRes.2 } outputs loss_raw
        (some (kdSubLosses clsLoss regLoss env.config.KD_BEGIN_LAYER outputs teacher_outputs))
        [Event.studentForward true, Event.teacherForward true]
    | _, _ =>
      Except.error ("AssertionError: kd_cls_loss & kd_reg_loss must be set", [])
  | none =>
    let outputs := studentOutputs env batch
    match outputs.loss with
    | some loss_raw =>
      restOfStep env n step batch st outputs loss_raw none [Event.studentForward false]
    | none =>
      Except.error ("TypeError: unsupported operand type for NoneType and int",
        [Event.studentForward false])

/-- One val step, source lines 157-185: plain forward under no-grad, the
raw task loss is recorded, predictions and references are gathered and
added, telemetry on the stride.  No accumulation, update or pruning
logic. -/
def valStep {T TS : Type} (env : Env T TS) (_n step : ℕ) (batch : Batch T)
    (st : LoopState T TS) : StepResult T TS :=
  let outputs := env.model batch false false
  match outputs.loss with
  | some loss =>
    let st1 : LoopState T TS := { st with batch_loss := st.batch_loss ++ [loss] }
    let gp := env.gather (predictionsOf env outputs.logits)
    let gr := env.gather batch.labels
    let st2 : LoopState T TS := { st1 with metricAdded := st1.metricAdded ++ [(gp, gr)] }
    let evs := [Event.studentForward false, Event.addBatch gp gr]
    if env.config.PRINT_FREQ = 0 then
      Except.error ("ZeroDivisionError: integer modulo by zero", evs)
    else if step % env.config.PRINT_FREQ = 0 then
      Except.ok (st2, evs ++ [Event.logStep loss loss none])
    else
      Except.ok (st2, evs)
  | none =>
    Except.error ("AttributeError: NoneType object has no attribute item",
      [Event.studentForward false])

/-- The `for step, batch in enumerate(dataloader)` loop: runs the step
body over the batches, accumulating the event trace; an exception
aborts the loop and carries the events emitted so far. -/
def runLoop {T TS : Type} (stepF : ℕ → Batch T → LoopState T TS → StepResult T TS) :
    List (Batch T) → ℕ → LoopState T TS → StepResult T TS
  | [], _, st => Except.ok (st, [])
  | b :: rest, step, st =>
    match stepF step b st with
    | Except.error e => Except.error e
    | Except.ok (st1, evs1) =>
      match runLoop stepF rest (step + 1) st1 with
      | Except.error (msg, evs2) => Except.error (msg, evs1 ++ evs2)
      | Except.ok (st2, evs2) => Except.ok (st2, evs1 ++ evs2)

/-- What a phase returns on success: the epoch mean loss, the recorded
learning rates, the final loop state, and the full event trace. -/
structure EpochResult (T TS : Type) where
  mean_loss : ℚ
  step_lr : List ℚ
  finalState : LoopState T TS
  trace : List (Event T)
deriving DecidableEq, Repr

namespace Trainer

/-- `Trainer.train`, source lines 12-147: resets the per-epoch records,
runs the loop, and computes the epoch mean loss as the sum of the
recorded per-step losses divided by their number — which raises
ZeroDivisionError when no step ran. -/
def train {T TS : Type} (env : Env T TS) (batches : List (Batch T))
    (st0 : LoopState T TS) : Except (String × List (Event T)) (EpochResult T TS) :=
  let stInit : LoopState T TS := { st0 with batch_loss := [], step_lr := [], metricAdded := [] }
  match runLoop (trainStep env batches.length) batches 0 stInit with
  | Except.error e => Except.error e
  | Except.ok (st, evs) =>
    if st.batch_loss.length = 0 then
      Except.error ("ZeroDivisionError: division by zero", evs)
    else
      Except.ok { mean_loss := st.batch_loss.sum / (st.batch_loss.length : ℚ),
                  step_lr := st.step_lr, finalState := st, trace := evs }

/-- `Trainer.val`, source lines 150-198: same loop shape without the
training-only logic; the epoch mean loss is again sum over count of the
recorded per-step losses. -/
def val {T TS : Type} (env : Env T TS) (batches : List (Batch T))
    (st0 : LoopState T TS) : Except (String × List (Event T)) (EpochResult T TS) :=
  let stInit : LoopState T TS := { st0 with batch_loss := [], step_lr := [], metricAdded := [] }
  match runLoop (valStep env batches.length) batches 0 stInit with
  | Except.error e => Except.error e
  | Except.ok (st, evs) =>
    if st.batch_loss.length = 0 then
      Except.error ("ZeroDivisionError: division by zero", evs)
    else
      Except.ok { mean_loss := st.batch_loss.sum / (st.batch_loss.length : ℚ),
                  step_lr := st.step_lr, finalState := st, trace := evs }

end Trainer

/-- Event classifiers used by the trace statements. -/
def Event.isOpt {T : Type} : Event T → Bool
  | Event.optStep => true
  | _ => false

def Event.isSched {T : Type} : Event T → Bool
  | Event.schedStep => true
  | _ => false

def Event.isZero {T : Type} : Event T → Bool
  | Event.zeroGrad => true
  | _ => false

def Event.isProgress {T : Type} : Event T → Bool
  | Event.progressUpdate => true
  | _ => false

def Event.isBackward {T : Type} : Event T → Bool
  | Event.backward _ => true
  | _ => false

def Event.isClipOrMeasure {T : Type} : Event T → Bool
  | Event.clipGrad _ => true
  | Event.measureGradNorm => true
  | _ => false

def Event.isPruneAction {T : Type} : Event T → Bool
  | Event.prune _ => true
  | Event.sparsityReport _ => true
  | _ => false

def Event.isAddBatch {T : Type} : Event T → Bool
  | Event.addBatch _ _ => true
  | _ => false

def Event.isLog {T : Type} : Event T → Bool
  | Event.logStep _ _ _ => true
  | _ => false

/-- The loss recorded by each backward event of a trace, in order. -/
def backwardLosses {T : Type} : List (Event T) → List ℚ
  | [] => []
  | Event.backward l :: rest => l :: backwardLosses rest
  | _ :: rest => backwardLosses rest

/-- Abbreviation for the gathered predictions of a step. -/
def gatheredPreds {T TS : Type} (env : Env T TS) (outputs : ModelOutput T) : T :=
  env.gather (predictionsOf env outputs.logits)

/-- The state after a successful `restOfStep`. -/
def stepStateAfter {T TS : Type} (env : Env T TS) (n step : ℕ) (batch : Batch T)
    (st0 : LoopState T TS) (outputs : ModelOutput T) (loss : ℚ) : LoopState T TS :=
  { updState env step n
      { st0 with batch_loss := st0.batch_loss ++ [loss],
                 step_lr := st0.step_lr ++ [st0.lr] } with
    metricAdded := st0.metricAdded ++ [(gatheredPreds env outputs, env.gather batch.labels)] }

/-- The full event list of a successful `restOfStep`. -/
def stepEventsAfter {T TS : Type} (env : Env T TS) (n step : ℕ) (batch : Batch T)
    (st0 : LoopState T TS) (outputs : ModelOutput T) (loss_raw : ℚ)
    (kdInfo : Option (ℚ × ℚ × ℚ)) (preEvents : List (Event T)) : List (Event T) :=
  let loss := loss_raw / (env.config.GRADIENT_ACCUMULATION_STEPS : ℚ)
  preEvents ++ [Event.backward loss] ++ clipEvts env.config ++
    updBlock env step n st0.pruneCalls ++
    [Event.addBatch (gatheredPreds env outputs) (env.gather batch.labels)] ++
    (if step % env.config.PRINT_FREQ = 0 then [Event.logStep loss_raw loss kdInfo] else [])

/-! ### The loss composer as a standalone contract -/

/-- The Loss Composer: the raw loss a train step uses, as a function of
the mode.  KD mode (teacher present with both sub-losses) composes the
KD loss from the dual forward; plain mode passes the model's task loss
through; a KD request with a missing sub-loss composes nothing. -/
def composeRawLoss {T TS : Type} (env : Env T TS) (batch : Batch T) (ts : TS) : Option ℚ :=
  match env.teacher, env.kd_cls_loss, env.kd_reg_loss with
  | some teacher, some clsLoss, some regLoss =>
      some (kdComposeLoss clsLoss regLoss env.config.KD_BEGIN_LAYER
        (studentOutputs env batch) (teacher batch true true ts).1)
  | none, _, _ => (studentOutputs env batch).loss
  | _, _, _ => none

/-! ### Concrete instances used by the witnesses -/

def cBatch : Batch ℚ := { inputs := 3, labels := 1 }

def cState : LoopState ℚ ℚ :=
  { batch_loss := [], step_lr := [], lr := 1, progress := 0, pruneCalls := 0,
    teacherState := 5, metricAdded := [] }

def cConfig (w pf : ℕ) (clip : ℚ) : Config :=
  { GRADIENT_ACCUMULATION_STEPS := w, CLIP_GRAD := clip, KD_BEGIN_LAYER := 0,
    PRINT_FREQ := pf, EPOCHS := 3 }

def cModel : Batch ℚ → Bool → Bool → ModelOutput ℚ :=
  fun b _ _ => { loss := some 1, logits := b.labels, hidden_states := [b.inputs],
                 attentions := [b.inputs] }

def cEnvPlain (w pf : ℕ) (clip : ℚ) : Env ℚ ℚ :=
  { model := cModel, teacher := none, kd_cls_loss := none, kd_reg_loss := none,
    argmax := fun x => x + 2, squeeze := fun x => x - 2, gather := fun x => x * 2,
    schedNext := fun r => r / 2, pruner := none, is_regression := false,
    config := cConfig w pf clip }

def cTeacher : Batch ℚ → Bool → Bool → ℚ → ModelOutput ℚ × ℚ :=
  fun b _ _ s =>
    ({ loss := some 2, logits := b.labels + 1, hidden_states := [b.inputs + 1],
       attentions := [b.inputs + 1] }, s + 17)

def cSqLoss : ℚ → ℚ → ℚ := fun a b => (a - b) * (a - b)

def cEnvKD (w pf : ℕ) : Env ℚ ℚ :=
  { cEnvPlain w pf 0 with
    teacher := some cTeacher
    kd_cls_loss := some cSqLoss
    kd_reg_loss := some cSqLoss }

def cEnvKDMissing : Env ℚ ℚ := { cEnvKD 1 1 with kd_reg_loss := none }

def cPruner : Pruner :=
  { pruneResult := fun k => if k % 2 = 0 then some ((k : ℚ) / 2) else none,
    updateMaskCond := fun k => k % 2 = 1,
    sparsity := fun k => ((k : ℚ), (k : ℚ) + 1) }

def cEnvPruner (w pf : ℕ) : Env ℚ ℚ :=
  { cEnvPlain w pf 0 with pruner := some cPruner }

/-- Result state of the concrete plain step `trainStep (cEnvPlain 2 1 0) 2 0`. -/
def cStep0State : LoopState ℚ ℚ := ⟨[1 / 2], [1], 1, 0, 0, 5, [(6, 2)]⟩

/-- Result events of the concrete plain step `trainStep (cEnvPlain 2 1 0) 2 0`. -/
def cStep0Events : List (Event ℚ) :=
  [Event.studentForward false, Event.backward (1 / 2), Event.measureGradNorm,
   Event.addBatch 6 2, Event.logStep 1 (1 / 2) none]

/-- Result state of the concrete KD step `trainStep (cEnvKD 2 1) 2 0`. -/
def cStepKDState : LoopState ℚ ℚ := ⟨[3 / 2], [1], 1, 0, 0, 5, [(6, 2)]⟩

/-- Result events of the concrete KD step `trainStep (cEnvKD 2 1) 2 0`. -/
def cStepKDEvents : List (Event ℚ) :=
  [Event.studentForward true, Event.teacherForward true, Event.backward (3 / 2),
   Event.measureGradNorm, Event.addBatch 6 2, Event.logStep 3 (3 / 2) (some (1, 1, 1))]

/-- Result state of the concrete pruner step `trainStep (cEnvPruner 2 1) 2 1`. -/
def cStepPrunerState : LoopState ℚ ℚ := ⟨[1 / 2], [1], 1 / 2, 1, 1, 5, [(6, 2)]⟩

/-- Result events of the concrete pruner step `trainStep (cEnvPruner 2 1) 2 1`. -/
def cStepPrunerEvents : List (Event ℚ) :=
  [Event.studentForward false, Event.backward (1 / 2), Event.measureGradNorm,
   Event.optStep, Event.schedStep, Event.zeroGrad, Event.progressUpdate,
   Event.prune (some 0), Event.addBatch 6 2, Event.logStep 1 (1 / 2) none]

/-- Result state of the concrete val step `valStep (cEnvPlain 2 1 0) 2 0`. -/
def cValStepState : LoopState ℚ ℚ := ⟨[1], [], 1, 0, 0, 5, [(6, 2)]⟩

/-- Result events of the concrete val step `valStep (cEnvPlain 2 1 0) 2 0`. -/
def cValStepEvents : List (Event ℚ) :=
  [Event.studentForward false, Event.addBatch 6 2, Event.logStep 1 1 none]

/-- Result of the concrete 3-step train epoch
`Trainer.train (cEnvPlain 2 1 0) [cBatch, cBatch, cBatch] cState`. -/
def cTrainRes3 : EpochResult ℚ ℚ :=
  { mean_loss := 1 / 2
    step_lr := [1, 1, 1 / 2]
    finalState := ⟨[1 / 2, 1 / 2, 1 / 2], [1, 1, 1 / 2], 1 / 4, 2, 0, 5,
      [(6, 2), (6, 2), (6, 2)]⟩
    trace := [Event.studentForward false, Event.backward (1 / 2),
      Event.measureGradNorm, Event.addBatch 6 2, Event.logStep 1 (1 / 2) none,
      Event.studentForward false, Event.backward (1 / 2), Event.measureGradNorm,
      Event.optStep, Event.schedStep, Event.zeroGrad, Event.progressUpdate,
      Event.addBatch 6 2, Event.logStep 1 (1 / 2) none,
      Event.studentForward false, Event.backward (1 / 2), Event.measureGradNorm,
      Event.optStep, Event.schedStep, Event.zeroGrad, Event.progressUpdate,
      Event.addBatch 6 2, Event.logStep 1 (1 / 2) none] }

/-- Result of the concrete one-step KD train epoch
`Trainer.train (cEnvKD 2 1) [cBatch] cState` — the teacher function tries
to bump its private state by 17, yet the no-grad scope discards it. -/
def cKDRes1 : EpochResult ℚ ℚ :=
  { mean_loss := 3 / 2
    step_lr := [1]
    finalState := ⟨[3 / 2], [1], 1 / 2, 1, 0, 5, [(6, 2)]⟩
    trace := [Event.studentForward true, Event.teacherForward true,
      Event.backward (3 / 2), Event.measureGradNorm, Event.optStep, Event.schedStep,
      Event.zeroGrad, Event.progressUpdate, Event.addBatch 6 2,
      Event.logStep 3 (3 / 2) (some (1, 1, 1))] }

/-- Result of the concrete 3-step val epoch
`Trainer.val (cEnvPlain 2 1 0) [cBatch, cBatch, cBatch] cState`. -/
def cValRes3 : EpochResult ℚ ℚ :=
  { mean_loss := 1
    step_lr := []
    finalState := ⟨[1, 1, 1], [], 1, 0, 0, 5, [(6, 2), (6, 2), (6, 2)]⟩
    trace := [Event.studentForward false, Event.addBatch 6 2, Event.logStep 1 1 none,
      Event.studentForward false, Event.addBatch 6 2, Event.logStep 1 1 none,
      Event.studentForward false, Event.addBatch 6 2, Event.logStep 1 1 none] }

/-! ### Counting update-trigger steps -/

/-- Among the first `m` step indices, the ones whose successor is a
multiple of `w` number `m / w`. -/
lemma countP_range_mod (w : ℕ) : ∀ m : ℕ,
    (List.range m).countP (fun s => (s + 1) % w == 0) = m / w := by
  intro m
  induction m with
  | zero => simp
  | succ m ih =>
    rw [List.range_succ, List.countP_append, ih, List.countP_singleton, Nat.succ_div]
    by_cases h : w ∣ m + 1
    · have hm : (m + 1) % w = 0 := Nat.mod_eq_zero_of_dvd h
      simp [h, hm]
    · have hm : (m + 1) % w ≠ 0 := fun hc => h (Nat.dvd_of_mod_eq_zero hc)
      simp [h, hm]

/-- The number of update-trigger steps in an epoch of `n ≥ 1` steps with
accumulation window `w ≥ 1` is the ceiling of `n / w`. -/
lemma countP_shouldUpdate (n w : ℕ) (hn : 1 ≤ n) (hw : 1 ≤ w) :
    (List.range n).countP (fun s => shouldUpdate s n w) = (n + w - 1) / w := by
  obtain ⟨m, rfl⟩ : ∃ m, n = m + 1 := ⟨n - 1, by omega⟩
  rw [List.range_succ, List.countP_append]
  have h1 : (List.range m).countP (fun s => shouldUpdate s (m + 1) w)
      = (List.range m).countP (fun s => (s + 1) % w == 0) := by
    apply List.countP_congr
    intro s hs
    have hsm : s < m := List.mem_range.mp hs
    simp [shouldUpdate, Nat.ne_of_lt hsm]
  have h2 : List.countP (fun s => shouldUpdate s (m + 1) w) [m] = 1 := by
    simp [shouldUpdate]
  rw [h1, h2, countP_range_mod]
  have h3 : m + 1 + w - 1 = m + w := by omega
  rw [h3, Nat.add_div_right _ hw]

/-! ### Characterizing a successful step -/

/-- A successful `restOfStep` has nonzero window and stride, and its state
and events are exactly `stepStateAfter` / `stepEventsAfter`. -/
lemma restOfStep_ok {T TS : Type} {env : Env T TS} {n step : ℕ} {batch : Batch T}
    {st0 st' : LoopState T TS} {outputs : ModelOutput T} {loss_raw : ℚ}
    {kdInfo : Option (ℚ × ℚ × ℚ)} {preEvents evs : List (Event T)}
    (h : restOfStep env n step batch st0 outputs loss_raw kdInfo preEvents
          = Except.ok (st', evs)) :
    env.config.GRADIENT_ACCUMULATION_STEPS ≠ 0 ∧ env.config.PRINT_FREQ ≠ 0 ∧
    st' = stepStateAfter env n step batch st0 outputs
            (loss_raw / (env.config.GRADIENT_ACCUMULATION_STEPS : ℚ)) ∧
    evs = stepEventsAfter env n step batch st0 outputs loss_raw kdInfo preEvents := by
  by_cases hw : env.config.GRADIENT_ACCUMULATION_STEPS = 0
  · simp [restOfStep, hw] at h
  · by_cases hpf : env.config.PRINT_FREQ = 0
    · simp [restOfStep, hw, hpf] at h
    · by_cases hmod : step % env.config.PRINT_FREQ = 0
      · simp only [restOfStep, if_neg hw, if_neg hpf, if_pos hmod] at h
        cases h
        refine ⟨hw, hpf, rfl, ?_⟩
        simp [stepEventsAfter, gatheredPreds, hmod]
      · simp only [restOfStep, if_neg hw, if_neg hpf, if_neg hmod] at h
        cases h
        refine ⟨hw, hpf, rfl, ?_⟩
        simp [stepEventsAfter, gatheredPreds, hmod]

/-- `restOfStep` always succeeds when the window and the stride are
nonzero. -/
lemma restOfStep_isOk {T TS : Type} (env : Env T TS) (n step : ℕ) (batch : Batch T)
    (st0 : LoopState T TS) (outputs : ModelOutput T) (loss_raw : ℚ)
    (kdInfo : Option (ℚ × ℚ × ℚ)) (preEvents : List (Event T))
    (hw : env.config.GRADIENT_ACCUMULATION_STEPS ≠ 0)
    (hpf : env.config.PRINT_FREQ ≠ 0) :
    ∃ st' evs, restOfStep env n step batch st0 outputs loss_raw kdInfo preEvents
      = Except.ok (st', evs) := by
  by_cases hmod : step % env.config.PRINT_FREQ = 0
  · exact ⟨_, _, by unfold restOfStep; simp only [if_neg hw, if_neg hpf, if_pos hmod]; rfl⟩
  · exact ⟨_, _, by unfold restOfStep; simp only [if_neg hw, if_neg hpf, if_neg hmod]; rfl⟩

/-- `restOfStep` fails only on a zero window or a zero stride. -/
lemma restOfStep_error {T TS : Type} {env : Env T TS} {n step : ℕ} {batch : Batch T}
    {st0 : LoopState T TS} {outputs : ModelOutput T} {loss_raw : ℚ}
    {kdInfo : Option (ℚ × ℚ × ℚ)} {preEvents : List (Event T)}
    {e : String × List (Event T)}
    (h : restOfStep env n step batch st0 outputs loss_raw kdInfo preEvents
      = Except.error e) :
    env.config.GRADIENT_ACCUMULATION_STEPS = 0 ∨ env.config.PRINT_FREQ = 0 := by
  by_cases hw : env.config.GRADIENT_ACCUMULATION_STEPS = 0
  · exact Or.inl hw
  · by_cases hpf : env.config.PRINT_FREQ = 0
    · exact Or.inr hpf
    · obtain ⟨st', evs, hok⟩ := restOfStep_isOk env n step batch st0 outputs
        loss_raw kdInfo preEvents hw hpf
      rw [hok] at h
      exact Except.noConfusion h

/-- The only failure causes of a train step: zero window, zero stride,
KD requested with a missing sub-loss, or a missing plain task loss. -/
lemma trainStep_error_cases {T TS : Type} {env : Env T TS} {n step : ℕ}
    {batch : Batch T} {st : LoopState T TS} {e : String × List (Event T)}
    (h : trainStep env n step batch st = Except.error e) :
    env.config.GRADIENT_ACCUMULATION_STEPS = 0 ∨ env.config.PRINT_FREQ = 0 ∨
    (env.teacher ≠ none ∧ (env.kd_cls_loss = none ∨ env.kd_reg_loss = none)) ∨
    (env.teacher = none ∧ (studentOutputs env batch).loss = none) := by
  cases hTe : env.teacher with
  | some teacher =>
    cases hc : env.kd_cls_loss with
    | none => exact Or.inr (Or.inr (Or.inl ⟨by simp [hTe], Or.inl rfl⟩))
    | some clsL =>
      cases hrg : env.kd_reg_loss with
      | none => exact Or.inr (Or.inr (Or.inl ⟨by simp [hTe], Or.inr rfl⟩))
      | some regL =>
        unfold trainStep at h
        simp only [hTe, hc, hrg] at h
        rcases restOfStep_error h with hw | hpf
        · exact Or.inl hw
        · exact Or.inr (Or.inl hpf)
  | none =>
    cases hl : (studentOutputs env batch).loss with
    | none => exact Or.inr (Or.inr (Or.inr ⟨rfl, rfl⟩))
    | some lr2 =>
      unfold trainStep at h
      simp only [hTe, hl] at h
      rcases restOfStep_error h with hw | hpf
      · exact Or.inl hw
      · exact Or.inr (Or.inl hpf)

/-- A successful KD-mode step: raw loss is the KD composite, forwards are
the dual forward with the teacher inside the no-grad scope. -/
lemma trainStep_kd_ok {T TS : Type} {env : Env T TS} {n step : ℕ} {batch : Batch T}
    {st st' : LoopState T TS} {evs : List (Event T)}
    {teacher : Batch T → Bool → Bool → TS → ModelOutput T × TS}
    {clsLoss regLoss : T → T → ℚ}
    (hT : env.teacher = some teacher) (hc : env.kd_cls_loss = some clsLoss)
    (hr : env.kd_reg_loss = some regLoss)
    (h : trainStep env n step batch st = Except.ok (st', evs)) :
    env.config.GRADIENT_ACCUMULATION_STEPS ≠ 0 ∧ env.config.PRINT_FREQ ≠ 0 ∧
    st' = stepStateAfter env n step batch st (studentOutputs env batch)
            (kdComposeLoss clsLoss regLoss env.config.KD_BEGIN_LAYER
              (studentOutputs env batch) (teacher batch true true st.teacherState).1
              / (env.config.GRADIENT_ACCUMULATION_STEPS : ℚ)) ∧
    evs = stepEventsAfter env n step batch st (studentOutputs env batch)
            (kdComposeLoss clsLoss regLoss env.config.KD_BEGIN_LAYER
              (studentOutputs env batch) (teacher batch true true st.teacherState).1)
            (some (kdSubLosses clsLoss regLoss env.config.KD_BEGIN_LAYER
              (studentOutputs env batch) (teacher batch true true st.teacherState).1))
            [Event.studentForward true, Event.teacherForward true] := by
  unfold trainStep at h
  rw [hT, hc, hr] at h
  exact restOfStep_ok h

/-- A successful plain-mode step: raw loss is the model's task loss. -/
lemma trainStep_plain_ok {T TS : Type} {env : Env T TS} {n step : ℕ} {batch : Batch T}
    {st st' : LoopState T TS} {evs : List (Event T)} {loss_raw : ℚ}
    (hT : env.teacher = none) (hl : (studentOutputs env batch).loss = some loss_raw)
    (h : trainStep env n step batch st = Except.ok (st', evs)) :
    env.config.GRADIENT_ACCUMULATION_STEPS ≠ 0 ∧ env.config.PRINT_FREQ ≠ 0 ∧
    st' = stepStateAfter env n step batch st (studentOutputs env batch)
            (loss_raw / (env.config.GRADIENT_ACCUMULATION_STEPS : ℚ)) ∧
    evs = stepEventsAfter env n step batch st (studentOutputs env batch) loss_raw none
            [Event.studentForward false] := by
  unfold trainStep at h
  simp only [hT, hl] at h
  exact restOfStep_ok h

/-- Every successful train step is a `restOfStep` outcome: its state and
events are `stepStateAfter` / `stepEventsAfter` for some raw loss, some
KD diagnostics, and one of the two forward prefixes. -/
lemma trainStep_ok_shape {T TS : Type} {env : Env T TS} {n step : ℕ} {batch : Batch T}
    {st st' : LoopState T TS} {evs : List (Event T)}
    (h : trainStep env n step batch st = Except.ok (st', evs)) :
    ∃ (loss_raw : ℚ) (kdInfo : Option (ℚ × ℚ × ℚ)) (pre : List (Event T)),
      (pre = [Event.studentForward true, Event.teacherForward true] ∨
        pre = [Event.studentForward false]) ∧
      env.config.GRADIENT_ACCUMULATION_STEPS ≠ 0 ∧ env.config.PRINT_FREQ ≠ 0 ∧
      st' = stepStateAfter env n step batch st (studentOutputs env batch)
              (loss_raw / (env.config.GRADIENT_ACCUMULATION_STEPS : ℚ)) ∧
      evs = stepEventsAfter env n step batch st (studentOutputs env batch)
              loss_raw kdInfo pre := by
  cases hT : env.teacher with
  | some teacher =>
    cases hc : env.kd_cls_loss with
    | none =>
      unfold trainStep at h
      simp only [hT, hc] at h
      exact Except.noConfusion h
    | some clsLoss =>
      cases hr : env.kd_reg_loss with
      | none =>
        unfold trainStep at h
        simp only [hT, hc, hr] at h
        exact Except.noConfusion h
      | some regLoss =>
        obtain ⟨hw, hpf, hst, hevs⟩ := trainStep_kd_ok hT hc hr h
        exact ⟨_, _, _, Or.inl rfl, hw, hpf, hst, hevs⟩
  | none =>
    cases hl : (studentOutputs env batch).loss with
    | none =>
      unfold trainStep at h
      simp only [hT, hl] at h
      exact Except.noConfusion h
    | some loss_raw =>
      obtain ⟨hw, hpf, hst, hevs⟩ := trainStep_plain_ok hT hl h
      exact ⟨_, _, _, Or.inr rfl, hw, hpf, hst, hevs⟩

/-- A successful val step: raw task loss recorded, gathered predictions
and references added, telemetry on the stride. -/
lemma valStep_ok {T TS : Type} {env : Env T TS} {n step : ℕ} {batch : Batch T}
    {st st' : LoopState T TS} {evs : List (Event T)}
    (h : valStep env n step batch st = Except.ok (st', evs)) :
    ∃ loss : ℚ, (env.model batch false false).loss = some loss ∧
      env.config.PRINT_FREQ ≠ 0 ∧
      st' = { st with
              batch_loss := st.batch_loss ++ [loss]
              metricAdded := st.metricAdded ++
                [(env.gather (predictionsOf env (env.model batch false false).logits),
                  env.gather batch.labels)] } ∧
      evs = [Event.studentForward false,
             Event.addBatch (env.gather (predictionsOf env (env.model batch false false).logits))
               (env.gather batch.labels)] ++
            (if step % env.config.PRINT_FREQ = 0 then [Event.logStep loss loss none] else []) := by
  unfold valStep at h
  cases hl : (env.model batch false false).loss with
  | none =>
    simp only [hl] at h
    exact Except.noConfusion h
  | some loss =>
    simp only [hl] at h
    by_cases hpf : env.config.PRINT_FREQ = 0
    · simp only [if_pos hpf] at h
      exact Except.noConfusion h
    · by_cases hmod : step % env.config.PRINT_FREQ = 0
      · simp only [if_neg hpf, if_pos hmod] at h
        cases h
        exact ⟨loss, rfl, hpf, rfl, by simp [hmod]⟩
      · simp only [if_neg hpf, if_neg hmod] at h
        cases h
        exact ⟨loss, rfl, hpf, rfl, by simp [hmod]⟩

/-! ### The loop -/

/-- A successful loop run over `b :: rest` decomposes into a successful
first step and a successful run of the rest, traces concatenated. -/
lemma runLoop_cons_ok {T TS : Type} {F : ℕ → Batch T → LoopState T TS → StepResult T TS}
    {b : Batch T} {rest : List (Batch T)} {k : ℕ} {st st' : LoopState T TS}
    {evs : List (Event T)}
    (h : runLoop F (b :: rest) k st = Except.ok (st', evs)) :
    ∃ st1 evs1 evs2, F k b st = Except.ok (st1, evs1) ∧
      runLoop F rest (k + 1) st1 = Except.ok (st', evs2) ∧ evs = evs1 ++ evs2 := by
  unfold runLoop at h
  cases hs : F k b st with
  | error e =>
    simp only [hs] at h
    exact Except.noConfusion h
  | ok r =>
    obtain ⟨st1, evs1⟩ := r
    simp only [hs] at h
    cases hr : runLoop F rest (k + 1) st1 with
    | error e =>
      obtain ⟨msg, evs2⟩ := e
      simp only [hr] at h
      exact Except.noConfusion h
    | ok r2 =>
      obtain ⟨st2, evs2⟩ := r2
      simp only [hr] at h
      cases h
      exact ⟨st1, evs1, evs2, rfl, hr, rfl⟩

/-- Counting events over a successful loop: if every successful step at
index `k` contributes `g k` events satisfying `p`, the whole trace
contributes the sum of `g` over the step indices. -/
lemma runLoop_countP {T TS : Type} {F : ℕ → Batch T → LoopState T TS → StepResult T TS}
    {p : Event T → Bool} {g : ℕ → ℕ}
    (hF : ∀ k b st st' evs, F k b st = Except.ok (st', evs) → evs.countP p = g k) :
    ∀ (l : List (Batch T)) (k : ℕ) (st st' : LoopState T TS) (evs : List (Event T)),
      runLoop F l k st = Except.ok (st', evs) →
      evs.countP p = ((List.range' k l.length).map g).sum := by
  intro l
  induction l with
  | nil =>
    intro k st st' evs h
    unfold runLoop at h
    cases h
    simp
  | cons b rest ih =>
    intro k st st' evs h
    obtain ⟨st1, evs1, evs2, hs, hr, rfl⟩ := runLoop_cons_ok h
    rw [List.countP_append, hF k b st st1 evs1 hs, ih (k + 1) st1 st' evs2 hr]
    simp [List.range'_succ]

/-! ### Per-step event counts -/

/-- Push a count inside a branch. -/
lemma countP_ite {α : Type _} (p : α → Bool) (c : Prop) [Decidable c] (A B : List α) :
    (if c then A else B).countP p = if c then A.countP p else B.countP p := by
  split <;> rfl

/-- Push a filter inside a branch. -/
lemma filter_ite {α : Type _} (p : α → Bool) (c : Prop) [Decidable c] (A B : List α) :
    (if c then A else B).filter p = if c then A.filter p else B.filter p := by
  split <;> rfl

lemma countP_stepEventsAfter_isOpt {T TS : Type} (env : Env T TS) (n step : ℕ)
    (batch : Batch T) (st0 : LoopState T TS) (outputs : ModelOutput T)
    (loss_raw : ℚ) (kdInfo : Option (ℚ × ℚ × ℚ)) (pre : List (Event T))
    (hpre : pre.countP Event.isOpt = 0) :
    (stepEventsAfter env n step batch st0 outputs loss_raw kdInfo pre).countP Event.isOpt
      = if shouldUpdate step n env.config.GRADIENT_ACCUMULATION_STEPS then 1 else 0 := by
  unfold stepEventsAfter updBlock pruneBlock clipEvts
  cases env.pruner <;>
    simp [countP_ite, List.countP_append, List.countP_cons, Event.isOpt, hpre]

lemma countP_stepEventsAfter_isSched {T TS : Type} (env : Env T TS) (n step : ℕ)
    (batch : Batch T) (st0 : LoopState T TS) (outputs : ModelOutput T)
    (loss_raw : ℚ) (kdInfo : Option (ℚ × ℚ × ℚ)) (pre : List (Event T))
    (hpre : pre.countP Event.isSched = 0) :
    (stepEventsAfter env n step batch st0 outputs loss_raw kdInfo pre).countP Event.isSched
      = if shouldUpdate step n env.config.GRADIENT_ACCUMULATION_STEPS then 1 else 0 := by
  unfold stepEventsAfter updBlock pruneBlock clipEvts
  cases env.pruner <;>
    simp [countP_ite, List.countP_append, List.countP_cons, Event.isSched, hpre]

lemma countP_stepEventsAfter_isZero {T TS : Type} (env : Env T TS) (n step : ℕ)
    (batch : Batch T) (st0 : LoopState T TS) (outputs : ModelOutput T)
    (loss_raw : ℚ) (kdInfo : Option (ℚ × ℚ × ℚ)) (pre : List (Event T))
    (hpre : pre.countP Event.isZero = 0) :
    (stepEventsAfter env n step batch st0 outputs loss_raw kdInfo pre).countP Event.isZero
      = if shouldUpdate step n env.config.GRADIENT_ACCUMULATION_STEPS then 1 else 0 := by
  unfold stepEventsAfter updBlock pruneBlock clipEvts
  cases env.pruner <;>
    simp [countP_ite, List.countP_append, List.countP_cons, Event.isZero, hpre]

lemma countP_stepEventsAfter_isProgress {T TS : Type} (env : Env T TS) (n step : ℕ)
    (batch : Batch T) (st0 : LoopState T TS) (outputs : ModelOutput T)
    (loss_raw : ℚ) (kdInfo : Option (ℚ × ℚ × ℚ)) (pre : List (Event T))
    (hpre : pre.countP Event.isProgress = 0) :
    (stepEventsAfter env n step batch st0 outputs loss_raw kdInfo pre).countP Event.isProgress
      = if shouldUpdate step n env.config.GRADIENT_ACCUMULATION_STEPS then 1 else 0 := by
  unfold stepEventsAfter updBlock pruneBlock clipEvts
  cases env.pruner <;>
    simp [countP_ite, List.countP_append, List.countP_cons, Event.isProgress, hpre]

lemma filter_stepEventsAfter_isBackward {T TS : Type} (env : Env T TS) (n step : ℕ)
    (batch : Batch T) (st0 : LoopState T TS) (outputs : ModelOutput T)
    (loss_raw : ℚ) (kdInfo : Option (ℚ × ℚ × ℚ)) (pre : List (Event T))
    (hpre : pre.filter Event.isBackward = []) :
    (stepEventsAfter env n step batch st0 outputs loss_raw kdInfo pre).filter Event.isBackward
      = [Event.backward (loss_raw / (env.config.GRADIENT_ACCUMULATION_STEPS : ℚ))] := by
  unfold stepEventsAfter updBlock pruneBlock clipEvts
  cases env.pruner <;>
    simp [filter_ite, List.filter_append, List.filter_cons, Event.isBackward, hpre]

lemma filter_stepEventsAfter_isClipOrMeasure {T TS : Type} (env : Env T TS) (n step : ℕ)
    (batch : Batch T) (st0 : LoopState T TS) (outputs : ModelOutput T)
    (loss_raw : ℚ) (kdInfo : Option (ℚ × ℚ × ℚ)) (pre : List (Event T))
    (hpre : pre.filter Event.isClipOrMeasure = []) :
    (stepEventsAfter env n step batch st0 outputs loss_raw kdInfo pre).filter
        Event.isClipOrMeasure
      = (if env.config.CLIP_GRAD ≠ 0 then [Event.clipGrad env.config.CLIP_GRAD]
         else [Event.measureGradNorm]) := by
  unfold stepEventsAfter updBlock pruneBlock clipEvts
  cases env.pruner <;>
    simp [filter_ite, List.filter_append, List.filter_cons, Event.isClipOrMeasure, hpre]

lemma filter_stepEventsAfter_isPruneAction {T TS : Type} (env : Env T TS) (n step : ℕ)
    (batch : Batch T) (st0 : LoopState T TS) (outputs : ModelOutput T)
    (loss_raw : ℚ) (kdInfo : Option (ℚ × ℚ × ℚ)) (pre : List (Event T))
    (hpre : pre.filter Event.isPruneAction = []) :
    (stepEventsAfter env n step batch st0 outputs loss_raw kdInfo pre).filter
        Event.isPruneAction
      = (if shouldUpdate step n env.config.GRADIENT_ACCUMULATION_STEPS then
          pruneBlock env.pruner st0.pruneCalls else []) := by
  unfold stepEventsAfter updBlock pruneBlock clipEvts
  cases env.pruner <;>
    simp [filter_ite, List.filter_append, List.filter_cons, Event.isPruneAction, hpre]

lemma filter_stepEventsAfter_isAddBatch {T TS : Type} (env : Env T TS) (n step : ℕ)
    (batch : Batch T) (st0 : LoopState T TS) (outputs : ModelOutput T)
    (loss_raw : ℚ) (kdInfo : Option (ℚ × ℚ × ℚ)) (pre : List (Event T))
    (hpre : pre.filter Event.isAddBatch = []) :
    (stepEventsAfter env n step batch st0 outputs loss_raw kdInfo pre).filter
        Event.isAddBatch
      = [Event.addBatch (gatheredPreds env outputs) (env.gather batch.labels)] := by
  unfold stepEventsAfter updBlock pruneBlock clipEvts
  cases env.pruner <;>
    simp [filter_ite, List.filter_append, List.filter_cons, Event.isAddBatch, hpre]

lemma filter_stepEventsAfter_isLog {T TS : Type} (env : Env T TS) (n step : ℕ)
    (batch : Batch T) (st0 : LoopState T TS) (outputs : ModelOutput T)
    (loss_raw : ℚ) (kdInfo : Option (ℚ × ℚ × ℚ)) (pre : List (Event T))
    (hpre : pre.filter Event.isLog = []) :
    (stepEventsAfter env n step batch st0 outputs loss_raw kdInfo pre).filter Event.isLog
      = (if step % env.config.PRINT_FREQ = 0
         then [Event.logStep loss_raw
            (loss_raw / (env.config.GRADIENT_ACCUMULATION_STEPS : ℚ)) kdInfo]
         else []) := by
  unfold stepEventsAfter updBlock pruneBlock clipEvts
  cases env.pruner <;>
    simp [filter_ite, List.filter_append, List.filter_cons, Event.isLog, hpre]

/-- Summing a boolean indicator over a list of indices is counting. -/
lemma sum_map_ite_eq_countP (p : ℕ → Bool) :
    ∀ l : List ℕ, (l.map (fun k => if p k then 1 else 0)).sum = l.countP p := by
  intro l
  induction l with
  | nil => simp
  | cons a l ih =>
    rw [List.map_cons, List.sum_cons, ih, List.countP_cons]
    by_cases h : p a <;> simp [h, Nat.add_comm]

/-! ### Characterizing a successful epoch -/

/-- A successful `Trainer.train` call is a successful loop run whose
mean loss is the sum of the recorded per-step losses over their number. -/
lemma train_ok {T TS : Type} {env : Env T TS} {batches : List (Batch T)}
    {st0 : LoopState T TS} {res : EpochResult T TS}
    (h : Trainer.train env batches st0 = Except.ok res) :
    runLoop (trainStep env batches.length) batches 0
        { st0 with batch_loss := [], step_lr := [], metricAdded := [] }
      = Except.ok (res.finalState, res.trace) ∧
    res.finalState.batch_loss.length ≠ 0 ∧
    res.mean_loss
      = res.finalState.batch_loss.sum / (res.finalState.batch_loss.length : ℚ) ∧
    res.step_lr = res.finalState.step_lr := by
  unfold Trainer.train at h
  cases hr : runLoop (trainStep env batches.length) batches 0
      { st0 with batch_loss := [], step_lr := [], metricAdded := [] } with
  | error e =>
    simp only [hr] at h
    exact Except.noConfusion h
  | ok r =>
    obtain ⟨st, evs⟩ := r
    simp only [hr] at h
    by_cases hz : st.batch_loss.length = 0
    · simp only [if_pos hz] at h
      exact Except.noConfusion h
    · simp only [if_neg hz] at h
      cases h
      exact ⟨rfl, hz, rfl, rfl⟩

/-- Same for `Trainer.val`. -/
lemma val_ok {T TS : Type} {env : Env T TS} {batches : List (Batch T)}
    {st0 : LoopState T TS} {res : EpochResult T TS}
    (h : Trainer.val env batches st0 = Except.ok res) :
    runLoop (valStep env batches.length) batches 0
        { st0 with batch_loss := [], step_lr := [], metricAdded := [] }
      = Except.ok (res.finalState, res.trace) ∧
    res.finalState.batch_loss.length ≠ 0 ∧
    res.mean_loss
      = res.finalState.batch_loss.sum / (res.finalState.batch_loss.length : ℚ) := by
  unfold Trainer.val at h
  cases hr : runLoop (valStep env batches.length) batches 0
      { st0 with batch_loss := [], step_lr := [], metricAdded := [] } with
  | error e =>
    simp only [hr] at h
    exact Except.noConfusion h
  | ok r =>
    obtain ⟨st, evs⟩ := r
    simp only [hr] at h
    by_cases hz : st.batch_loss.length = 0
    · simp only [if_pos hz] at h
      exact Except.noConfusion h
    · simp only [if_neg hz] at h
      cases h
      exact ⟨rfl, hz, rfl⟩

/-! ### State evolution across a step and a run -/

/-- The update branch does not touch the recorded losses, the teacher
state, or the aggregator state. -/
lemma updState_fields {T TS : Type} (env : Env T TS) (step n : ℕ)
    (st : LoopState T TS) :
    (updState env step n st).batch_loss = st.batch_loss ∧
    (updState env step n st).teacherState = st.teacherState ∧
    (updState env step n st).metricAdded = st.metricAdded := by
  unfold updState
  split <;> exact ⟨rfl, rfl, rfl⟩

/-- `backwardLosses` distributes over concatenation. -/
lemma backwardLosses_append {T : Type} (l1 l2 : List (Event T)) :
    backwardLosses (l1 ++ l2) = backwardLosses l1 ++ backwardLosses l2 := by
  induction l1 with
  | nil => rfl
  | cons e l ih =>
    cases e <;> simp [backwardLosses, ih]

/-- Push `backwardLosses` inside a branch. -/
lemma backwardLosses_ite {T : Type} (c : Prop) [Decidable c] (A B : List (Event T)) :
    backwardLosses (if c then A else B)
      = if c then backwardLosses A else backwardLosses B := by
  split <;> rfl

/-- A successful train step appends exactly one recorded loss and leaves
the teacher state untouched. -/
lemma trainStep_batch_loss_teacher {T TS : Type} {env : Env T TS} {n step : ℕ}
    {batch : Batch T} {st st' : LoopState T TS} {evs : List (Event T)}
    (h : trainStep env n step batch st = Except.ok (st', evs)) :
    (∃ l : ℚ, st'.batch_loss = st.batch_loss ++ [l] ∧ backwardLosses evs = [l]) ∧
    st'.teacherState = st.teacherState := by
  obtain ⟨loss_raw, kdInfo, pre, hpre, hw, hpf, hst, hevs⟩ := trainStep_ok_shape h
  constructor
  · refine ⟨loss_raw / (env.config.GRADIENT_ACCUMULATION_STEPS : ℚ), ?_, ?_⟩
    · rw [hst]
      unfold stepStateAfter
      have := (updState_fields env step n
        { st with
          batch_loss := st.batch_loss ++
            [loss_raw / (env.config.GRADIENT_ACCUMULATION_STEPS : ℚ)]
          step_lr := st.step_lr ++ [st.lr] }).1
      simpa using this
    · rw [hevs]
      unfold stepEventsAfter updBlock pruneBlock clipEvts
      rcases hpre with h1 | h1 <;> subst h1 <;>
        cases env.pruner <;> split_ifs <;>
        simp [backwardLosses, backwardLosses_append, backwardLosses_ite]
  · rw [hst]
    unfold stepStateAfter
    have := (updState_fields env step n
      { st with
        batch_loss := st.batch_loss ++
          [loss_raw / (env.config.GRADIENT_ACCUMULATION_STEPS : ℚ)]
        step_lr := st.step_lr ++ [st.lr] }).2.1
    simpa using this

/-- A successful val step appends exactly one recorded loss and leaves
the teacher state untouched. -/
lemma valStep_batch_loss_teacher {T TS : Type} {env : Env T TS} {n step : ℕ}
    {batch : Batch T} {st st' : LoopState T TS} {evs : List (Event T)}
    (h : valStep env n step batch st = Except.ok (st', evs)) :
    (∃ l : ℚ, st'.batch_loss = st.batch_loss ++ [l]) ∧
    st'.teacherState = st.teacherState := by
  obtain ⟨loss, hl, hpf, hst, hevs⟩ := valStep_ok h
  exact ⟨⟨loss, by rw [hst]⟩, by rw [hst]⟩

/-- Over a successful loop run whose step appends exactly one loss (the
one recorded by the step's backward event), the final recorded losses
are the initial ones extended by the trace's backward losses; the
teacher state never changes. -/
lemma runLoop_batch_loss_teacher {T TS : Type}
    {F : ℕ → Batch T → LoopState T TS → StepResult T TS}
    (hF : ∀ k b st st' evs, F k b st = Except.ok (st', evs) →
      (∃ l : ℚ, st'.batch_loss = st.batch_loss ++ [l] ∧ backwardLosses evs = [l]) ∧
      st'.teacherState = st.teacherState) :
    ∀ (l : List (Batch T)) (k : ℕ) (st st' : LoopState T TS) (evs : List (Event T)),
      runLoop F l k st = Except.ok (st', evs) →
      st'.batch_loss = st.batch_loss ++ backwardLosses evs ∧
      (backwardLosses evs).length = l.length ∧
      st'.teacherState = st.teacherState := by
  intro l
  induction l with
  | nil =>
    intro k st st' evs h
    unfold runLoop at h
    cases h
    simp [backwardLosses]
  | cons b rest ih =>
    intro k st st' evs h
    obtain ⟨st1, evs1, evs2, hs, hr, rfl⟩ := runLoop_cons_ok h
    obtain ⟨⟨l1, hbl, hbw⟩, hts⟩ := hF k b st st1 evs1 hs
    obtain ⟨hbl2, hlen2, hts2⟩ := ih (k + 1) st1 st' evs2 hr
    rw [backwardLosses_append, hbw]
    refine ⟨?_, ?_, ?_⟩
    · rw [hbl2, hbl]
      simp
    · simp [hlen2]
    · rw [hts2, hts]

/-- Same for a loop whose step only appends one loss (the val loop). -/
lemma runLoop_val_batch_loss_teacher {T TS : Type}
    {F : ℕ → Batch T → LoopState T TS → StepResult T TS}
    (hF : ∀ k b st st' evs, F k b st = Except.ok (st', evs) →
      (∃ l : ℚ, st'.batch_loss = st.batch_loss ++ [l]) ∧
      st'.teacherState = st.teacherState) :
    ∀ (l : List (Batch T)) (k : ℕ) (st st' : LoopState T TS) (evs : List (Event T)),
      runLoop F l k st = Except.ok (st', evs) →
      st'.batch_loss.length = st.batch_loss.length + l.length ∧
      st'.teacherState = st.teacherState := by
  intro l
  induction l with
  | nil =>
    intro k st st' evs h
    unfold runLoop at h
    cases h
    simp
  | cons b rest ih =>
    intro k st st' evs h
    obtain ⟨st1, evs1, evs2, hs, hr, rfl⟩ := runLoop_cons_ok h
    obtain ⟨⟨l1, hbl⟩, hts⟩ := hF k b st st1 evs1 hs
    obtain ⟨hlen2, hts2⟩ := ih (k + 1) st1 st' evs2 hr
    refine ⟨?_, ?_⟩
    · rw [hlen2, hbl]
      simp
      omega
    · rw [hts2, hts]

/-! ### Per-step counts of a successful train step -/

lemma trainStep_countP_isOpt {T TS : Type} {env : Env T TS} {n k : ℕ} {b : Batch T}
    {st st' : LoopState T TS} {evs : List (Event T)}
    (h : trainStep env n k b st = Except.ok (st', evs)) :
    evs.countP Event.isOpt
      = if shouldUpdate k n env.config.GRADIENT_ACCUMULATION_STEPS then 1 else 0 := by
  obtain ⟨lraw, kd, pre, hpre, hw, hpf, hst, hevs⟩ := trainStep_ok_shape h
  subst hevs
  apply countP_stepEventsAfter_isOpt
  rcases hpre with h1 | h1 <;> subst h1 <;> rfl

lemma trainStep_countP_isSched {T TS : Type} {env : Env T TS} {n k : ℕ} {b : Batch T}
    {st st' : LoopState T TS} {evs : List (Event T)}
    (h : trainStep env n k b st = Except.ok (st', evs)) :
    evs.countP Event.isSched
      = if shouldUpdate k n env.config.GRADIENT_ACCUMULATION_STEPS then 1 else 0 := by
  obtain ⟨lraw, kd, pre, hpre, hw, hpf, hst, hevs⟩ := trainStep_ok_shape h
  subst hevs
  apply countP_stepEventsAfter_isSched
  rcases hpre with h1 | h1 <;> subst h1 <;> rfl

lemma trainStep_countP_isZero {T TS : Type} {env : Env T TS} {n k : ℕ} {b : Batch T}
    {st st' : LoopState T TS} {evs : List (Event T)}
    (h : trainStep env n k b st = Except.ok (st', evs)) :
    evs.countP Event.isZero
      = if shouldUpdate k n env.config.GRADIENT_ACCUMULATION_STEPS then 1 else 0 := by
  obtain ⟨lraw, kd, pre, hpre, hw, hpf, hst, hevs⟩ := trainStep_ok_shape h
  subst hevs
  apply countP_stepEventsAfter_isZero
  rcases hpre with h1 | h1 <;> subst h1 <;> rfl

lemma trainStep_countP_isProgress {T TS : Type} {env : Env T TS} {n k : ℕ} {b : Batch T}
    {st st' : LoopState T TS} {evs : List (Event T)}
    (h : trainStep env n k b st = Except.ok (st', evs)) :
    evs.countP Event.isProgress
      = if shouldUpdate k n env.config.GRADIENT_ACCUMULATION_STEPS then 1 else 0 := by
  obtain ⟨lraw, kd, pre, hpre, hw, hpf, hst, hevs⟩ := trainStep_ok_shape h
  subst hevs
  apply countP_stepEventsAfter_isProgress
  rcases hpre with h1 | h1 <;> subst h1 <;> rfl

/-- The trace of a successful epoch counts one opt/sched/zero/progress
event per update-trigger step index. -/
lemma train_trace_countP {T TS : Type} {env : Env T TS} {batches : List (Batch T)}
    {st0 : LoopState T TS} {res : EpochResult T TS}
    (hrun : Trainer.train env batches st0 = Except.ok res)
    (p : Event T → Bool)
    (hp : ∀ (k : ℕ) (b : Batch T) (st st' : LoopState T TS) (evs : List (Event T)),
      trainStep env batches.length k b st = Except.ok (st', evs) →
      evs.countP p
        = if shouldUpdate k batches.length env.config.GRADIENT_ACCUMULATION_STEPS
          then 1 else 0) :
    res.trace.countP p
      = (List.range batches.length).countP
          (fun s => shouldUpdate s batches.length env.config.GRADIENT_ACCUMULATION_STEPS) := by
  obtain ⟨hloop, _, _, _⟩ := train_ok hrun
  have := runLoop_countP (g := fun k =>
      if shouldUpdate k batches.length env.config.GRADIENT_ACCUMULATION_STEPS then 1 else 0)
    hp batches 0 _ res.finalState res.trace hloop
  rw [this, ← List.range_eq_range']
  exact sum_map_ite_eq_countP _ _

/-! ### Further helpers -/

/-- The fold that accumulates a sum starting from `a` is `a` plus the sum
of the mapped list. -/
lemma foldl_add_eq_sum {α : Type _} (f : α → ℚ) :
    ∀ (l : List α) (a : ℚ), l.foldl (fun acc p => acc + f p) a = a + (l.map f).sum := by
  intro l
  induction l with
  | nil => intro a; simp
  | cons x l ih => intro a; simp [ih, add_assoc]

/-- No step emits `e`, hence neither does the loop trace. -/
lemma runLoop_not_mem {T TS : Type} {F : ℕ → Batch T → LoopState T TS → StepResult T TS}
    {e : Event T}
    (hF : ∀ k b st st' evs, F k b st = Except.ok (st', evs) → e ∉ evs) :
    ∀ (l : List (Batch T)) (k : ℕ) (st st' : LoopState T TS) (evs : List (Event T)),
      runLoop F l k st = Except.ok (st', evs) → e ∉ evs := by
  intro l
  induction l with
  | nil =>
    intro k st st' evs h
    unfold runLoop at h
    cases h
    simp
  | cons b rest ih =>
    intro k st st' evs h
    obtain ⟨st1, evs1, evs2, hs, hr, rfl⟩ := runLoop_cons_ok h
    intro hmem
    rcases List.mem_append.mp hmem with hm | hm
    · exact hF k b st st1 evs1 hs hm
    · exact ih (k + 1) st1 st' evs2 hr hm

/-- A successful train step never performs a grad-enabled teacher
forward. -/
lemma trainStep_no_grad_teacher {T TS : Type} {env : Env T TS} {n k : ℕ} {b : Batch T}
    {st st' : LoopState T TS} {evs : List (Event T)}
    (h : trainStep env n k b st = Except.ok (st', evs)) :
    Event.teacherForward false ∉ evs := by
  obtain ⟨lraw, kd, pre, hpre, hw, hpf, hst, hevs⟩ := trainStep_ok_shape h
  subst hevs
  unfold stepEventsAfter updBlock pruneBlock clipEvts
  rcases hpre with h1 | h1 <;> subst h1 <;>
    cases env.pruner <;> split_ifs <;> simp

/-! ## The claims -/

/-- C10: with an empty dataloader the epoch mean loss is the sum of the
recorded per-step losses divided by their number, which is a division by
zero, so both the train and val procedures fail (ZeroDivisionError with
an empty trace) instead of returning a result. -/
theorem C10_empty_dataloader_fails {T TS : Type} (env : Env T TS)
    (st0 : LoopState T TS) :
    Trainer.train env ([] : List (Batch T)) st0
      = Except.error ("ZeroDivisionError: division by zero", []) ∧
    Trainer.val env ([] : List (Batch T)) st0
      = Except.error ("ZeroDivisionError: division by zero", []) :=
  ⟨rfl, rfl⟩

/-- C9: when a teacher is supplied but one of the two KD sub-loss
functions is missing, the train procedure fails with an empty event
trace: no forward, backward, optimizer update or metric accumulation
happens before the failure. -/
theorem C9_kd_missing_subloss_fails_fast {T TS : Type} (env : Env T TS)
    (batches : List (Batch T)) (st0 : LoopState T TS)
    (teacher : Batch T → Bool → Bool → TS → ModelOutput T × TS)
    (hT : env.teacher = some teacher)
    (hmiss : env.kd_cls_loss = none ∨ env.kd_reg_loss = none) :
    ∃ msg, Trainer.train env batches st0
      = Except.error (msg, ([] : List (Event T))) := by
  cases batches with
  | nil => exact ⟨"ZeroDivisionError: division by zero", rfl⟩
  | cons b rest =>
    refine ⟨"AssertionError: kd_cls_loss & kd_reg_loss must be set", ?_⟩
    have hstep : trainStep env (b :: rest).length 0 b
        { st0 with batch_loss := [], step_lr := [], metricAdded := [] }
        = Except.error ("AssertionError: kd_cls_loss & kd_reg_loss must be set", []) := by
      unfold trainStep
      rcases hmiss with hm | hm
      · simp [hT, hm]
      · cases hc : env.kd_cls_loss <;> simp [hT, hm, hc]
    have hloop : runLoop (trainStep env (b :: rest).length) (b :: rest) 0
        { st0 with batch_loss := [], step_lr := [], metricAdded := [] }
        = Except.error ("AssertionError: kd_cls_loss & kd_reg_loss must be set", []) := by
      unfold runLoop
      simp only [hstep]
    unfold Trainer.train
    simp only [hloop]

/-- C9 witness: a concrete KD run with `kd_reg_loss` missing fails with
an empty trace. -/
theorem C9_witness :
    cEnvKDMissing.teacher = some cTeacher ∧
    cEnvKDMissing.kd_reg_loss = none ∧
    ∃ msg, Trainer.train cEnvKDMissing [cBatch] cState
      = Except.error (msg, ([] : List (Event ℚ))) :=
  ⟨rfl, rfl,
    C9_kd_missing_subloss_fails_fast cEnvKDMissing [cBatch] cState cTeacher rfl
      (Or.inr rfl)⟩

/-- C2: at every successful train step — update-triggering or not — the
loss handed to the backward call is the composed raw loss divided by the
configured gradient-accumulation window. -/
theorem C2_backward_loss_is_scaled {T TS : Type} (env : Env T TS) (n step : ℕ)
    (batch : Batch T) (st st' : LoopState T TS) (evs : List (Event T))
    (hstep : trainStep env n step batch st = Except.ok (st', evs)) :
    ∃ loss_raw : ℚ, composeRawLoss env batch st.teacherState = some loss_raw ∧
      evs.filter Event.isBackward
        = [Event.backward
            (loss_raw / (env.config.GRADIENT_ACCUMULATION_STEPS : ℚ))] := by
  cases hT : env.teacher with
  | some teacher =>
    cases hc : env.kd_cls_loss with
    | none =>
      unfold trainStep at hstep
      simp only [hT, hc] at hstep
      exact Except.noConfusion hstep
    | some clsL =>
      cases hr : env.kd_reg_loss with
      | none =>
        unfold trainStep at hstep
        simp only [hT, hc, hr] at hstep
        exact Except.noConfusion hstep
      | some regL =>
        obtain ⟨hw, hpf, hst, hevs⟩ := trainStep_kd_ok hT hc hr hstep
        refine ⟨kdComposeLoss clsL regL env.config.KD_BEGIN_LAYER
            (studentOutputs env batch) (teacher batch true true st.teacherState).1,
            ?_, ?_⟩
        · simp [composeRawLoss, hT, hc, hr]
        · rw [hevs]
          apply filter_stepEventsAfter_isBackward
          rfl
  | none =>
    cases hl : (studentOutputs env batch).loss with
    | none =>
      unfold trainStep at hstep
      simp only [hT, hl] at hstep
      exact Except.noConfusion hstep
    | some lraw =>
      obtain ⟨hw, hpf, hst, hevs⟩ := trainStep_plain_ok hT hl hstep
      refine ⟨lraw, ?_, ?_⟩
      · simp [composeRawLoss, hT, hl]
      · rw [hevs]
        apply filter_stepEventsAfter_isBackward
        rfl

/-- C2 witness: a concrete plain step backwards the task loss 1 divided
by window 2. -/
theorem C2_witness :
    ∃ loss_raw : ℚ,
      composeRawLoss (cEnvPlain 2 1 0) cBatch cState.teacherState = some loss_raw ∧
      ([Event.studentForward false, Event.backward (1 / 2), Event.measureGradNorm,
        Event.addBatch 6 2, Event.logStep 1 (1 / 2) none] :
          List (Event ℚ)).filter Event.isBackward
        = [Event.backward (loss_raw
            / ((cEnvPlain 2 1 0).config.GRADIENT_ACCUMULATION_STEPS : ℚ))] :=
  C2_backward_loss_is_scaled (cEnvPlain 2 1 0) 2 0 cBatch cState
    ⟨[1 / 2], [1], 1, 0, 0, 5, [(6, 2)]⟩
    [Event.studentForward false, Event.backward (1 / 2), Event.measureGradNorm,
     Event.addBatch 6 2, Event.logStep 1 (1 / 2) none]
    (by decide)

/-- C5 counterexample: with accumulation window 2 and a 2-step epoch,
step 0 is a purely accumulating step, yet gradient-norm measurement
runs on it — so clipping/measurement is not restricted to
update-triggering steps. -/
theorem C5_counterexample :
    shouldUpdate 0 2 2 = false ∧
    trainStep (cEnvPlain 2 1 0) 2 0 cBatch cState
      = Except.ok (⟨[1 / 2], [1], 1, 0, 0, 5, [(6, 2)]⟩,
          [Event.studentForward false, Event.backward (1 / 2), Event.measureGradNorm,
           Event.addBatch 6 2, Event.logStep 1 (1 / 2) none]) ∧
    Event.measureGradNorm ∈
      [Event.studentForward false, Event.backward ((1 : ℚ) / 2), Event.measureGradNorm,
       Event.addBatch (6 : ℚ) 2, Event.logStep 1 (1 / 2) none] := by
  refine ⟨rfl, by decide, by simp⟩

/-- C5 amended: the gradient-norm clip-or-measure action runs exactly
once on every successful train step, whether or not the step triggers an
update: clipping to the configured max-norm when one is set (nonzero),
plain measurement otherwise. -/
theorem C5_clip_or_measure_every_step {T TS : Type} (env : Env T TS) (n step : ℕ)
    (batch : Batch T) (st st' : LoopState T TS) (evs : List (Event T))
    (hstep : trainStep env n step batch st = Except.ok (st', evs)) :
    evs.filter Event.isClipOrMeasure
      = (if env.config.CLIP_GRAD ≠ 0 then [Event.clipGrad env.config.CLIP_GRAD]
         else [Event.measureGradNorm]) := by
  obtain ⟨lraw, kd, pre, hpre, hw, hpf, hst, hevs⟩ := trainStep_ok_shape hstep
  subst hevs
  apply filter_stepEventsAfter_isClipOrMeasure
  rcases hpre with h1 | h1 <;> subst h1 <;> rfl

/-- C5 witness: the concrete accumulating step of the counterexample
still measures the gradient norm exactly once. -/
theorem C5_witness :
    ([Event.studentForward false, Event.backward (1 / 2), Event.measureGradNorm,
      Event.addBatch 6 2, Event.logStep 1 (1 / 2) none] :
        List (Event ℚ)).filter Event.isClipOrMeasure
      = (if (cEnvPlain 2 1 0).config.CLIP_GRAD ≠ 0
         then [Event.clipGrad (cEnvPlain 2 1 0).config.CLIP_GRAD]
         else [Event.measureGradNorm]) :=
  C5_clip_or_measure_every_step (cEnvPlain 2 1 0) 2 0 cBatch cState
    ⟨[1 / 2], [1], 1, 0, 0, 5, [(6, 2)]⟩
    [Event.studentForward false, Event.backward (1 / 2), Event.measureGradNorm,
     Event.addBatch 6 2, Event.logStep 1 (1 / 2) none]
    (by decide)

/-- C6: the mean loss returned by each phase is the arithmetic mean —
sum divided by count — of the per-step losses recorded during the epoch;
the count equals the number of steps, and for the train phase the
recorded losses are exactly the ones handed to backward, in order. -/
theorem C6_epoch_mean_loss {T TS : Type} (env : Env T TS) (batches : List (Batch T))
    (st0 : LoopState T TS) (resT resV : EpochResult T TS)
    (htrain : Trainer.train env batches st0 = Except.ok resT)
    (hval : Trainer.val env batches st0 = Except.ok resV) :
    (resT.mean_loss = resT.finalState.batch_loss.sum
        / (resT.finalState.batch_loss.length : ℚ) ∧
     resT.finalState.batch_loss = backwardLosses resT.trace ∧
     resT.finalState.batch_loss.length = batches.length) ∧
    (resV.mean_loss = resV.finalState.batch_loss.sum
        / (resV.finalState.batch_loss.length : ℚ) ∧
     resV.finalState.batch_loss.length = batches.length) := by
  obtain ⟨hloopT, hzT, hmT, _⟩ := train_ok htrain
  obtain ⟨hloopV, hzV, hmV⟩ := val_ok hval
  obtain ⟨hblT, hlenT, _⟩ := runLoop_batch_loss_teacher
    (fun k b st st' evs h => trainStep_batch_loss_teacher h)
    batches 0 _ resT.finalState resT.trace hloopT
  obtain ⟨hlenV, _⟩ := runLoop_val_batch_loss_teacher
    (fun k b st st' evs h => valStep_batch_loss_teacher h)
    batches 0 _ resV.finalState resV.trace hloopV
  refine ⟨⟨hmT, ?_, ?_⟩, hmV, ?_⟩
  · rw [hblT]
    rfl
  · rw [hblT]
    simpa using hlenT
  · simpa using hlenV

/-- C6 witness: concrete 3-step train and val epochs. -/
theorem C6_witness :
    (cTrainRes3.mean_loss = cTrainRes3.finalState.batch_loss.sum
        / (cTrainRes3.finalState.batch_loss.length : ℚ) ∧
     cTrainRes3.finalState.batch_loss = backwardLosses cTrainRes3.trace ∧
     cTrainRes3.finalState.batch_loss.length = 3) ∧
    (cValRes3.mean_loss = cValRes3.finalState.batch_loss.sum
        / (cValRes3.finalState.batch_loss.length : ℚ) ∧
     cValRes3.finalState.batch_loss.length = 3) :=
  C6_epoch_mean_loss (cEnvPlain 2 1 0) [cBatch, cBatch, cBatch] cState cTrainRes3
    cValRes3 (by decide) (by decide)

/-- C4: a successful train epoch leaves the teacher model's private state
(parameters and their gradients) exactly as it was — whatever state
mutation the teacher callable would perform, the no-grad scope discards
it — and no grad-enabled teacher forward appears in the trace. -/
theorem C4_teacher_state_unchanged {T TS : Type} (env : Env T TS)
    (batches : List (Batch T)) (st0 : LoopState T TS) (res : EpochResult T TS)
    (hrun : Trainer.train env batches st0 = Except.ok res) :
    res.finalState.teacherState = st0.teacherState ∧
    Event.teacherForward false ∉ res.trace := by
  obtain ⟨hloop, _, _, _⟩ := train_ok hrun
  obtain ⟨_, _, hts⟩ := runLoop_batch_loss_teacher
    (fun k b st st' evs h => trainStep_batch_loss_teacher h)
    batches 0 _ res.finalState res.trace hloop
  exact ⟨hts, runLoop_not_mem (fun k b st st' evs h => trainStep_no_grad_teacher h)
    batches 0 _ res.finalState res.trace hloop⟩

/-- C4 witness: in the concrete KD epoch the teacher tries to add 17 to
its state on every forward, yet the state stays 5 and only no-grad
teacher forwards appear. -/
theorem C4_witness :
    cKDRes1.finalState.teacherState = cState.teacherState ∧
    Event.teacherForward false ∉ cKDRes1.trace :=
  C4_teacher_state_unchanged (cEnvKD 2 1) [cBatch] cState cKDRes1 (by decide)

/-- C8: every successful step of either phase hands the metric
aggregator exactly one pair: the cross-worker-gathered predictions —
argmax over the class dimension of the logits for classification,
squeezed raw logits for regression — and the cross-worker-gathered
labels. -/
theorem C8_predictions_and_gather {T TS : Type} (env : Env T TS) (n step : ℕ)
    (batch : Batch T) (st stT stV : LoopState T TS) (evsT evsV : List (Event T))
    (hTr : trainStep env n step batch st = Except.ok (stT, evsT))
    (hV : valStep env n step batch st = Except.ok (stV, evsV)) :
    evsT.filter Event.isAddBatch
      = [Event.addBatch
          (env.gather (if env.is_regression
            then env.squeeze (studentOutputs env batch).logits
            else env.argmax (studentOutputs env batch).logits))
          (env.gather batch.labels)] ∧
    evsV.filter Event.isAddBatch
      = [Event.addBatch
          (env.gather (if env.is_regression
            then env.squeeze (env.model batch false false).logits
            else env.argmax (env.model batch false false).logits))
          (env.gather batch.labels)] := by
  constructor
  · obtain ⟨lraw, kd, pre, hpre, hw, hpf, hst, hevs⟩ := trainStep_ok_shape hTr
    rw [hevs]
    rw [filter_stepEventsAfter_isAddBatch env n step batch st (studentOutputs env batch)
      lraw kd pre (by rcases hpre with h1 | h1 <;> subst h1 <;> rfl)]
    simp [gatheredPreds, predictionsOf]
  · obtain ⟨loss, hl, hpf, hst, hevs⟩ := valStep_ok hV
    rw [hevs]
    by_cases hmod : step % env.config.PRINT_FREQ = 0 <;>
      simp [hmod, Event.isAddBatch, predictionsOf, List.filter_append]

/-- C8 witness: the concrete classification steps add the gathered
argmax predictions and gathered labels in both phases. -/
theorem C8_witness :
    cStep0Events.filter Event.isAddBatch
      = [Event.addBatch
          ((cEnvPlain 2 1 0).gather (if (cEnvPlain 2 1 0).is_regression
            then (cEnvPlain 2 1 0).squeeze (studentOutputs (cEnvPlain 2 1 0) cBatch).logits
            else (cEnvPlain 2 1 0).argmax (studentOutputs (cEnvPlain 2 1 0) cBatch).logits))
          ((cEnvPlain 2 1 0).gather cBatch.labels)] ∧
    cValStepEvents.filter Event.isAddBatch
      = [Event.addBatch
          ((cEnvPlain 2 1 0).gather (if (cEnvPlain 2 1 0).is_regression
            then (cEnvPlain 2 1 0).squeeze ((cEnvPlain 2 1 0).model cBatch false false).logits
            else (cEnvPlain 2 1 0).argmax ((cEnvPlain 2 1 0).model cBatch false false).logits))
          ((cEnvPlain 2 1 0).gather cBatch.labels)] :=
  C8_predictions_and_gather (cEnvPlain 2 1 0) 2 0 cBatch cState cStep0State cValStepState
    cStep0Events cValStepEvents (by decide) (by decide)

/-- C7: pruning actions appear in a step's trace exactly when a pruner is
configured and the step triggers an update; the pruning block is the
prune call followed, only when the mask-update condition holds, by the
sparsity report; absence of a pruner means no pruning event; on update
steps the pruning block sits after the optimizer step. -/
theorem C7_pruning_cadence {T TS : Type} (env : Env T TS) (n step : ℕ)
    (batch : Batch T) (st st' : LoopState T TS) (evs : List (Event T))
    (hstep : trainStep env n step batch st = Except.ok (st', evs)) :
    evs.filter Event.isPruneAction
      = (if shouldUpdate step n env.config.GRADIENT_ACCUMULATION_STEPS
         then pruneBlock env.pruner st.pruneCalls else []) ∧
    (env.pruner = none → evs.filter Event.isPruneAction = []) ∧
    (∀ p, env.pruner = some p →
      pruneBlock (T := T) env.pruner st.pruneCalls
        = Event.prune (p.pruneResult st.pruneCalls) ::
            (if p.updateMaskCond st.pruneCalls
             then [Event.sparsityReport (p.sparsity st.pruneCalls)] else [])) ∧
    (shouldUpdate step n env.config.GRADIENT_ACCUMULATION_STEPS = true →
      ∃ pre post, evs = pre ++ [Event.optStep, Event.schedStep, Event.zeroGrad,
          Event.progressUpdate] ++ pruneBlock env.pruner st.pruneCalls ++ post ∧
        pre.filter Event.isPruneAction = [] ∧ post.filter Event.isPruneAction = []) ∧
    (∃ stN evsN, trainStep { env with pruner := none } n step batch st
        = Except.ok (stN, evsN) ∧ evsN.filter Event.isPruneAction = []) := by
  obtain ⟨lraw, kd, pre0, hpre, hw, hpf, hst, hevs⟩ := trainStep_ok_shape hstep
  have hfilter : evs.filter Event.isPruneAction
      = (if shouldUpdate step n env.config.GRADIENT_ACCUMULATION_STEPS
         then pruneBlock env.pruner st.pruneCalls else []) := by
    rw [hevs]
    apply filter_stepEventsAfter_isPruneAction
    rcases hpre with h1 | h1 <;> subst h1 <;> rfl
  refine ⟨hfilter, ?_, ?_, ?_, ?_⟩
  · intro hp
    rw [hfilter, hp]
    split_ifs <;> simp [pruneBlock]
  · intro p hp
    rw [hp]
    rfl
  · intro hSU
    refine ⟨pre0 ++ [Event.backward (lraw / (env.config.GRADIENT_ACCUMULATION_STEPS : ℚ))]
        ++ clipEvts env.config,
      [Event.addBatch (gatheredPreds env (studentOutputs env batch))
          (env.gather batch.labels)]
        ++ (if step % env.config.PRINT_FREQ = 0
            then [Event.logStep lraw
              (lraw / (env.config.GRADIENT_ACCUMULATION_STEPS : ℚ)) kd]
            else []), ?_, ?_, ?_⟩
    · rw [hevs]
      unfold stepEventsAfter updBlock
      rw [if_pos hSU]
      simp [List.append_assoc]
    · rcases hpre with h1 | h1 <;> subst h1 <;>
        unfold clipEvts <;> split_ifs <;> rfl
    · split_ifs <;> rfl
  · cases hN : trainStep { env with pruner := none } n step batch st with
    | error e =>
      exfalso
      rcases trainStep_error_cases hN with h0 | h0 | h0 | h0
      · exact hw h0
      · exact hpf h0
      · obtain ⟨hTne, hmiss⟩ := h0
        cases hTe : env.teacher with
        | none => exact hTne hTe
        | some teacher =>
          unfold trainStep at hstep
          rcases hmiss with hm | hm
          · simp only [hTe, show env.kd_cls_loss = none from hm] at hstep
            exact Except.noConfusion hstep
          · cases hc : env.kd_cls_loss <;>
              simp only [hTe, hc, show env.kd_reg_loss = none from hm] at hstep <;>
              exact Except.noConfusion hstep
      · obtain ⟨hTe, hl⟩ := h0
        unfold trainStep at hstep
        simp only [show env.teacher = none from hTe,
          show (studentOutputs env batch).loss = none from hl] at hstep
        exact Except.noConfusion hstep
    | ok r =>
      obtain ⟨stN, evsN⟩ := r
      obtain ⟨lraw2, kd2, pre2, hpre2, hw2, hpf2, hst2, hevs2⟩ := trainStep_ok_shape hN
      refine ⟨stN, evsN, rfl, ?_⟩
      rw [hevs2]
      rw [filter_stepEventsAfter_isPruneAction _ n step batch st _ lraw2 kd2 pre2
        (by rcases hpre2 with h1 | h1 <;> subst h1 <;> rfl)]
      split_ifs <;> simp [pruneBlock]

/-- C7 witness: the concrete pruner step at an update-trigger index runs
prune after the optimizer step, with no sparsity report because the
mask-update condition is false there. -/
theorem C7_witness :
    cStepPrunerEvents.filter Event.isPruneAction
      = (if shouldUpdate 1 2 2 then pruneBlock (T := ℚ) (some cPruner) 0 else []) ∧
    ((cEnvPruner 2 1).pruner = none →
      cStepPrunerEvents.filter Event.isPruneAction = []) ∧
    (∀ p, (cEnvPruner 2 1).pruner = some p →
      pruneBlock (T := ℚ) (some cPruner) 0
        = Event.prune (p.pruneResult 0) ::
            (if p.updateMaskCond 0 then [Event.sparsityReport (p.sparsity 0)] else [])) ∧
    (shouldUpdate 1 2 2 = true →
      ∃ pre post, cStepPrunerEvents = pre ++ [Event.optStep, Event.schedStep,
          Event.zeroGrad, Event.progressUpdate] ++ pruneBlock (T := ℚ) (some cPruner) 0 ++ post ∧
        pre.filter Event.isPruneAction = [] ∧ post.filter Event.isPruneAction = []) ∧
    (∃ stN evsN, trainStep { cEnvPruner 2 1 with pruner := none } 2 1 cBatch cState
        = Except.ok (stN, evsN) ∧ evsN.filter Event.isPruneAction = []) :=
  C7_pruning_cadence (cEnvPruner 2 1) 2 1 cBatch cState cStepPrunerState
    cStepPrunerEvents (by decide)

/-- C3: in KD mode the raw loss used for scaling, backward, and the
telemetry line is the KD composite — the logit loss plus the per-layer
hidden-state and attention losses summed over the positional pairing of
both sequences sliced from begin_layer onward — and the fold the code
computes equals that sum-over-layers form. -/
theorem C3_kd_composite_raw_loss {T TS : Type} (env : Env T TS) (n step : ℕ)
    (batch : Batch T) (st st' : LoopState T TS) (evs : List (Event T))
    (teacher : Batch T → Bool → Bool → TS → ModelOutput T × TS)
    (clsL regL : T → T → ℚ)
    (hTe : env.teacher = some teacher) (hc : env.kd_cls_loss = some clsL)
    (hr : env.kd_reg_loss = some regL)
    (hstep : trainStep env n step batch st = Except.ok (st', evs)) :
    (kdComposeLoss clsL regL env.config.KD_BEGIN_LAYER (studentOutputs env batch)
        (teacher batch true true st.teacherState).1
      = clsL (studentOutputs env batch).logits
          (teacher batch true true st.teacherState).1.logits
        + ((((studentOutputs env batch).hidden_states.drop env.config.KD_BEGIN_LAYER).zip
            ((teacher batch true true st.teacherState).1.hidden_states.drop
              env.config.KD_BEGIN_LAYER)).map (fun q => regL q.1 q.2)).sum
        + ((((studentOutputs env batch).attentions.drop env.config.KD_BEGIN_LAYER).zip
            ((teacher batch true true st.teacherState).1.attentions.drop
              env.config.KD_BEGIN_LAYER)).map (fun q => regL q.1 q.2)).sum) ∧
    evs.filter Event.isBackward
      = [Event.backward (kdComposeLoss clsL regL env.config.KD_BEGIN_LAYER
          (studentOutputs env batch) (teacher batch true true st.teacherState).1
          / (env.config.GRADIENT_ACCUMULATION_STEPS : ℚ))] ∧
    (∀ x y z, Event.logStep x y z ∈ evs →
      x = kdComposeLoss clsL regL env.config.KD_BEGIN_LAYER (studentOutputs env batch)
            (teacher batch true true st.teacherState).1 ∧
      z = some (kdSubLosses clsL regL env.config.KD_BEGIN_LAYER
            (studentOutputs env batch) (teacher batch true true st.teacherState).1)) := by
  obtain ⟨hw, hpf, hst, hevs⟩ := trainStep_kd_ok hTe hc hr hstep
  refine ⟨?_, ?_, ?_⟩
  · unfold kdComposeLoss
    rw [foldl_add_eq_sum, foldl_add_eq_sum]
    ring
  · rw [hevs]
    apply filter_stepEventsAfter_isBackward
    rfl
  · intro x y z hmem
    have hmem2 : Event.logStep x y z ∈ evs.filter Event.isLog :=
      List.mem_filter.mpr ⟨hmem, rfl⟩
    rw [hevs, filter_stepEventsAfter_isLog env n step batch st (studentOutputs env batch)
      (kdComposeLoss clsL regL env.config.KD_BEGIN_LAYER (studentOutputs env batch)
        (teacher batch true true st.teacherState).1)
      (some (kdSubLosses clsL regL env.config.KD_BEGIN_LAYER (studentOutputs env batch)
        (teacher batch true true st.teacherState).1))
      [Event.studentForward true, Event.teacherForward true] (by rfl)] at hmem2
    by_cases hmod : step % env.config.PRINT_FREQ = 0
    · rw [if_pos hmod] at hmem2
      simp at hmem2
      exact ⟨hmem2.1, hmem2.2.2⟩
    · rw [if_neg hmod] at hmem2
      simp at hmem2

/-- C3 witness: the concrete KD step composes 1 + 1 + 1 = 3, backwards
3/2, and logs raw loss 3 with sub-losses (1, 1, 1). -/
theorem C3_witness :
    (kdComposeLoss cSqLoss cSqLoss 0 (studentOutputs (cEnvKD 2 1) cBatch)
        (cTeacher cBatch true true cState.teacherState).1
      = cSqLoss (studentOutputs (cEnvKD 2 1) cBatch).logits
          (cTeacher cBatch true true cState.teacherState).1.logits
        + ((((studentOutputs (cEnvKD 2 1) cBatch).hidden_states.drop 0).zip
            ((cTeacher cBatch true true cState.teacherState).1.hidden_states.drop 0)).map
            (fun q => cSqLoss q.1 q.2)).sum
        + ((((studentOutputs (cEnvKD 2 1) cBatch).attentions.drop 0).zip
            ((cTeacher cBatch true true cState.teacherState).1.attentions.drop 0)).map
            (fun q => cSqLoss q.1 q.2)).sum) ∧
    cStepKDEvents.filter Event.isBackward
      = [Event.backward (kdComposeLoss cSqLoss cSqLoss 0
          (studentOutputs (cEnvKD 2 1) cBatch)
          (cTeacher cBatch true true cState.teacherState).1 / 2)] ∧
    (∀ x y z, Event.logStep x y z ∈ cStepKDEvents →
      x = kdComposeLoss cSqLoss cSqLoss 0 (studentOutputs (cEnvKD 2 1) cBatch)
            (cTeacher cBatch true true cState.teacherState).1 ∧
      z = some (kdSubLosses cSqLoss cSqLoss 0 (studentOutputs (cEnvKD 2 1) cBatch)
            (cTeacher cBatch true true cState.teacherState).1)) :=
  C3_kd_composite_raw_loss (cEnvKD 2 1) 2 0 cBatch cState cStepKDState cStepKDEvents
    cTeacher cSqLoss cSqLoss rfl rfl rfl (by decide)

/-- C1: an optimizer update fires at step s exactly when
(s + 1) mod w = 0 or s is the last step; the last step always triggers;
on every successful step each of optimizer step, scheduler step,
gradient zeroing and progress advance occurs once if the step triggers
and never otherwise; over a successful epoch of n ≥ 1 steps with window
w ≥ 1 each of the four occurs exactly ceil(n / w) = (n + w - 1) / w
times. -/
theorem C1_update_schedule {T TS : Type} (env : Env T TS) (batches : List (Batch T))
    (st0 : LoopState T TS) (res : EpochResult T TS) (step : ℕ) (b : Batch T)
    (stA stB : LoopState T TS) (evsS : List (Event T))
    (hw : 1 ≤ env.config.GRADIENT_ACCUMULATION_STEPS)
    (hn : 1 ≤ batches.length)
    (hrun : Trainer.train env batches st0 = Except.ok res)
    (hstep : trainStep env batches.length step b stA = Except.ok (stB, evsS)) :
    (shouldUpdate step batches.length env.config.GRADIENT_ACCUMULATION_STEPS
       = ((step + 1) % env.config.GRADIENT_ACCUMULATION_STEPS == 0
          || step == batches.length - 1)) ∧
    shouldUpdate (batches.length - 1) batches.length
        env.config.GRADIENT_ACCUMULATION_STEPS = true ∧
    (evsS.countP Event.isOpt
       = if shouldUpdate step batches.length env.config.GRADIENT_ACCUMULATION_STEPS
         then 1 else 0) ∧
    evsS.countP Event.isSched = evsS.countP Event.isOpt ∧
    evsS.countP Event.isZero = evsS.countP Event.isOpt ∧
    evsS.countP Event.isProgress = evsS.countP Event.isOpt ∧
    res.trace.countP Event.isOpt
       = (batches.length + env.config.GRADIENT_ACCUMULATION_STEPS - 1)
          / env.config.GRADIENT_ACCUMULATION_STEPS ∧
    res.trace.countP Event.isSched = res.trace.countP Event.isOpt ∧
    res.trace.countP Event.isZero = res.trace.countP Event.isOpt ∧
    res.trace.countP Event.isProgress = res.trace.countP Event.isOpt := by
  have hOpt := trainStep_countP_isOpt hstep
  have hSched := trainStep_countP_isSched hstep
  have hZero := trainStep_countP_isZero hstep
  have hProg := trainStep_countP_isProgress hstep
  have htrOpt := train_trace_countP hrun Event.isOpt
    (fun k bb stx sty evs h => trainStep_countP_isOpt h)
  have htrSched := train_trace_countP hrun Event.isSched
    (fun k bb stx sty evs h => trainStep_countP_isSched h)
  have htrZero := train_trace_countP hrun Event.isZero
    (fun k bb stx sty evs h => trainStep_countP_isZero h)
  have htrProg := train_trace_countP hrun Event.isProgress
    (fun k bb stx sty evs h => trainStep_countP_isProgress h)
  refine ⟨rfl, by simp [shouldUpdate], hOpt, by rw [hSched, hOpt],
    by rw [hZero, hOpt], by rw [hProg, hOpt], ?_,
    by rw [htrSched, htrOpt], by rw [htrZero, htrOpt], by rw [htrProg, htrOpt]⟩
  rw [htrOpt, countP_shouldUpdate batches.length _ hn hw]

/-- C1 witness: three steps with window two — updates at steps 1 and 2
only, two updates in total, the last one on the final step. -/
theorem C1_witness :
    shouldUpdate 0 3 2 = false ∧
    shouldUpdate 2 3 2 = true ∧
    cStep0Events.countP Event.isOpt = 0 ∧
    cStep0Events.countP Event.isSched = cStep0Events.countP Event.isOpt ∧
    cStep0Events.countP Event.isZero = cStep0Events.countP Event.isOpt ∧
    cStep0Events.countP Event.isProgress = cStep0Events.countP Event.isOpt ∧
    cTrainRes3.trace.countP Event.isOpt = 2 ∧
    cTrainRes3.trace.countP Event.isSched = cTrainRes3.trace.countP Event.isOpt ∧
    cTrainRes3.trace.countP Event.isZero = cTrainRes3.trace.countP Event.isOpt ∧
    cTrainRes3.trace.countP Event.isProgress = cTrainRes3.trace.countP Event.isOpt := by
  have h := C1_update_schedule (cEnvPlain 2 1 0) [cBatch, cBatch, cBatch] cState
    cTrainRes3 0 cBatch cState cStep0State cStep0Events
    (by decide) (by decide) (by decide) (by decide)
  exact ⟨h.1.symm ▸ rfl, h.2.1, h.2.2.1, h.2.2.2.1, h.2.2.2.2.1, h.2.2.2.2.2.1,
    h.2.2.2.2.2.2.1, h.2.2.2.2.2.2.2.1, h.2.2.2.2.2.2.2.2.1, h.2.2.2.2.2.2.2.2.2⟩

end TrainerModel
